import Mathlib

/-
  Verification of the viammo-frontend trip-planning client.

  The definitions below are a shallow embedding of the TypeScript sources:
    - src/services/types.ts        (data model)
    - src/services/api.ts          (identifier normalization in getTrip)
    - src/contexts/TripContext.tsx (shared trip state)
    - src/screens/Trips/Trips.tsx  (list view fetch and render branching)
    - src/screens/BuildANewTrip/BuildANewTrip.tsx (date picker, create flow)
    - src/screens/TripElementDetail/TripElementDetail.tsx (item lookup)
    - the TripDraftCalendar component (calendar view fetchData)

  Modelling conventions:
    - JavaScript nullable strings become Option String; JS truthiness of a
      nullable string (null and the empty string are falsy) is strTruthy.
    - Dates are modelled as integers counting days: new Date(y, m, day)
      comparisons are the integer order, and setDate(getDate() + 7) is
      addDays 7.  toISOString is the identity on these instants.
    - Network calls become explicit result parameters of type Except:
      each component effect is a pure function of its inputs and of the
      outcome the network would deliver.
-/

namespace Viammo

/-- JS truthiness of a nullable string: null and the empty string are falsy. -/
def strTruthy : Option String → Bool
  | none => false
  | some s => s ≠ ""

/-- JS expression a or b for a nullable string a with default b. -/
def strOr (a : Option String) (b : String) : String :=
  match a with
  | none => b
  | some s => if s = "" then b else s

/-- JS expression n or 1 for a nullable number n (0 and null are falsy). -/
def numOr1 : Option Nat → Nat
  | none => 1
  | some 0 => 1
  | some n => n

/-- Decides whether pat occurs as a contiguous sublist, as JS String.includes. -/
def hasSubList (pat : List Char) : List Char → Bool
  | [] => pat.isEmpty
  | c :: rest => pat.isPrefixOf (c :: rest) || hasSubList pat rest

/-- JS s.includes(pat). -/
def strIncludes (s pat : String) : Bool :=
  hasSubList pat.data s.data

/-- Whitespace removed by JS String.trim (the code points the client can see). -/
def jsWhitespaceChar (c : Char) : Bool :=
  c == ' ' || c == '\t' || c == '\n' || c == '\r' ||
  c.toNat == 0x0b || c.toNat == 0x0c || c.toNat == 0xa0 ||
  c.toNat == 0x2028 || c.toNat == 0x2029 || c.toNat == 0xfeff

/-- JS String.trim on the character list. -/
def jsTrimList (l : List Char) : List Char :=
  ((l.dropWhile jsWhitespaceChar).reverse.dropWhile jsWhitespaceChar).reverse

/-- JS String.trim. -/
def jsTrim (s : String) : String :=
  String.mk (jsTrimList s.data)

/-- A character matched by the quote class in the regex of api.ts getTrip. -/
def isQuoteChar (c : Char) : Bool :=
  c == '"' || c == '\''

/-- A JS regex line terminator: the dot in a regex never matches these. -/
def lineTerminatorChar (c : Char) : Bool :=
  c == '\n' || c == '\r' || c.toNat == 0x2028 || c.toNat == 0x2029

/-- The replace step of api.ts getTrip on a trimmed identifier: the regex
matches exactly when the string has length at least two, its first and last
characters are quote characters, and no interior character is a line
terminator (the dot of the regex does not cross line terminators); on a
match the first and last characters are dropped. -/
def stripQuotesList (t : List Char) : List Char :=
  match t with
  | [] => []
  | [c] => [c]
  | c :: rest =>
    let lastc := rest.getLastD c
    let middle := rest.dropLast
    if isQuoteChar c && isQuoteChar lastc && middle.all (fun x => !lineTerminatorChar x) then
      middle
    else
      t

/-- The identifier cleaning of api.ts getTrip: trim, then strip one layer of
surrounding quotes via the regex. -/
def cleanTripId (id : String) : String :=
  String.mk (stripQuotesList (jsTrimList id.data))

/-- Modelled from the spec words of section 4.1: the input identifier is
trimmed and, when the trimmed value begins and ends with a quote character,
those two surrounding quotes are removed.  Used only to compare the spec
description of getTrip normalization against cleanTripId. -/
def specNormalizeId (id : String) : String :=
  let t := jsTrimList id.data
  match t with
  | [] => String.mk []
  | [c] => String.mk [c]
  | c :: rest =>
    let lastc := rest.getLastD c
    let middle := rest.dropLast
    if isQuoteChar c && isQuoteChar lastc then
      String.mk middle
    else
      String.mk t

/-- The identifier api.ts getTrip puts into the request URL: none models the
validation throw on an empty input, some the URL path segment actually used. -/
def getTripRequestId (id : String) : Option String :=
  if id = "" then none else some (cleanTripId id)

/- Data model, from src/services/types.ts. -/

/-- A trip or item identifier: either a plain string or the wrapped MongoDB
object form, whose single field may be absent. -/
inductive MongoId where
  | str (s : String)
  | obj (oid : Option String)
deriving DecidableEq, Repr

/-- A value that the TS types allow to be a string or a number. -/
inductive StrOrNum where
  | str (s : String)
  | num (n : Int)
deriving DecidableEq, Repr

/-- The Trip record of types.ts, restricted to the fields the verified
control flow reads. -/
structure Trip where
  _id : MongoId
  name : String
  startDate : String
  endDate : String
  destination : String
  numberOfGuests : Nat
  status : Option String
  totalBudget : Option StrOrNum
  notes : Option String
deriving DecidableEq, Repr

/-- The TripCalendarItem record of types.ts, restricted to the fields the
verified control flow reads. -/
structure TripCalendarItem where
  _id : MongoId
  trip_id : MongoId
  type : String
  name : String
  date : String
  budget : Option StrOrNum
  notes : Option String
deriving DecidableEq, Repr

/-- The shared trip state of TripContext.tsx: selected trip id, selected
trip, and the calendar item collection. -/
structure TripContextState where
  currentTripId : Option String
  currentTrip : Option Trip
  calendarItems : List TripCalendarItem
deriving DecidableEq, Repr

/-- The clearTripData operation of TripContext.tsx. -/
def clearTripData : TripContextState :=
  { currentTripId := none, currentTrip := none, calendarItems := [] }

/- List view, from src/screens/Trips/Trips.tsx. -/

/-- The value resolved by api.checkApiHealth in Trips.tsx fetchTrips. -/
structure HealthStatus where
  status : String
  message : String
deriving DecidableEq, Repr

/-- The state Trips.tsx fetchTrips leaves behind, plus a flag recording
whether api.getTrips was invoked at all. -/
structure TripsFetchResult where
  trips : List Trip
  error : Option String
  apiStatus : Option HealthStatus
  listCalled : Bool
deriving DecidableEq, Repr

/-- The message Trips.tsx sets when the listing comes back empty. -/
def noTripsFoundMsg : String :=
  "No trips found in the database. The API server is running correctly, but the MongoDB collection may be empty."

/-- Trips.tsx fetchTrips as a function of the outcomes the two network calls
would deliver: the health check result (an exception models the rejected
promise) and the trip listing result.  The listing outcome is only consulted
when the health check came back ok with status ok. -/
def fetchTrips (healthResult : Except String HealthStatus)
    (tripsResult : Except String (List Trip)) : TripsFetchResult :=
  match healthResult with
  | .error _ =>
    { trips := [],
      error := some "Cannot connect to the API server. Please ensure it is running.",
      apiStatus := none, listCalled := false }
  | .ok h =>
    if h.status ≠ "ok" then
      { trips := [],
        error := some ("API server is not available: " ++ h.message),
        apiStatus := some h, listCalled := false }
    else
      match tripsResult with
      | .ok tripData =>
        { trips := tripData,
          error := if tripData.length = 0 then some noTripsFoundMsg else none,
          apiStatus := some h, listCalled := true }
      | .error _ =>
        { trips := [],
          error := some "An error occurred while fetching trips. Check the console for details.",
          apiStatus := some h, listCalled := true }

/-- Whether the health check failed in the sense of Trips.tsx: the call
threw, or it reported a status other than ok. -/
def healthFailed : Except String HealthStatus → Bool
  | .error _ => true
  | .ok h => h.status ≠ "ok"

/-- The four mutually exclusive render branches of the Trips.tsx body. -/
inductive TripsDisplay where
  | loadingView
  | errorView (msg : String)
  | emptyView
  | listView (trips : List Trip)
deriving DecidableEq, Repr

/-- The render branching of Trips.tsx: loading, then error, then the empty
collection message, then the trip cards. -/
def tripsDisplay (loading : Bool) (error : Option String) (trips : List Trip) : TripsDisplay :=
  if loading then .loadingView
  else
    match error with
    | some m => .errorView m
    | none => if trips.length = 0 then .emptyView else .listView trips

/-- What Trips.tsx shows once its mount-time fetch has completed (loading is
false by then). -/
def tripsDisplayAfterFetch (healthResult : Except String HealthStatus)
    (tripsResult : Except String (List Trip)) : TripsDisplay :=
  let r := fetchTrips healthResult tripsResult
  tripsDisplay false r.error r.trips

/- Calendar view, from the TripDraftCalendar component. -/

/-- The network outcomes the calendar view could observe, one per endpoint
it may call. -/
structure CalendarApi where
  getTrip : String → Except String Trip
  getTripCalendar : String → Except String (List TripCalendarItem)

/-- What one run of TripDraftCalendar fetchData leaves behind: the shared
state after the run, the local error, which fetches were performed, and the
trip id the fetches used. -/
structure FetchDataResult where
  ctx : TripContextState
  error : Option String
  tripFetched : Bool
  calendarFetched : Bool
  usedTripId : Option String
deriving DecidableEq, Repr

/-- The trip id fetchData resolves: the context id when truthy, else the URL
path id when truthy, else none (which makes fetchData throw). -/
def resolvedTripId (ctxId pathId : Option String) : Option String :=
  if strTruthy ctxId then ctxId
  else if strTruthy pathId then pathId
  else none

/-- The calendar item step of fetchData: always re-fetch the items for the
resolved trip id; on failure store an empty collection and set the error. -/
def fetchCalendarStep (api : CalendarApi) (tid : String) (ctx : TripContextState)
    (tripFetched : Bool) : FetchDataResult :=
  match api.getTripCalendar tid with
  | .ok items =>
    { ctx := { ctx with calendarItems := items }, error := none,
      tripFetched := tripFetched, calendarFetched := true, usedTripId := some tid }
  | .error e =>
    { ctx := { ctx with calendarItems := [] },
      error := some ("Could not load calendar items: " ++ e),
      tripFetched := tripFetched, calendarFetched := true, usedTripId := some tid }

/-- TripDraftCalendar fetchData: resolve the trip id (writing a path-derived
id back into the context), fetch the trip only when no trip is cached, then
always fetch the calendar items.  A trip fetch failure propagates to the
outer catch, so the calendar fetch is skipped in that case. -/
def fetchData (api : CalendarApi) (pathId : Option String) (ctx : TripContextState) :
    FetchDataResult :=
  let ctx1 :=
    if !strTruthy ctx.currentTripId && strTruthy pathId then
      { ctx with currentTripId := pathId }
    else ctx
  match resolvedTripId ctx.currentTripId pathId with
  | none =>
    { ctx := ctx1,
      error := some "No trip ID provided. Please select a trip from the trips list.",
      tripFetched := false, calendarFetched := false, usedTripId := none }
  | some tid =>
    match ctx.currentTrip with
    | some _ => fetchCalendarStep api tid ctx1 false
    | none =>
      match api.getTrip tid with
      | .error e =>
        { ctx := ctx1, error := some ("Failed to load trip details: " ++ e),
          tripFetched := true, calendarFetched := false, usedTripId := some tid }
      | .ok t => fetchCalendarStep api tid { ctx1 with currentTrip := some t } true

/-- Whether an api outcome is a success. -/
def exceptOk : Except String α → Bool
  | .ok _ => true
  | .error _ => false

/- Item detail view, from src/screens/TripElementDetail/TripElementDetail.tsx. -/

/-- The identifier string of a calendar item as computed in the find
callback of TripElementDetail.tsx: a plain string directly, a wrapped id
through its single field, none when that field is absent (JS undefined,
which compares unequal to every string). -/
def itemIdString (item : TripCalendarItem) : Option String :=
  match item._id with
  | .str s => some s
  | .obj oid => oid

/-- JS split on the slash character, on the character list (structural, so
that concrete instances evaluate). -/
def splitOnSlash : List Char → List (List Char)
  | [] => [[]]
  | c :: rest =>
    match splitOnSlash rest with
    | [] => [[]]
    | h :: t => if c == '/' then [] :: h :: t else (c :: h) :: t

/-- The requested id as TripElementDetail.tsx compares it: when the URL
parameter contains a slash, only the segment after the last slash is used
(JS id.split with slash, then pop). -/
def paramIdOf (id : String) : String :=
  if id.data.contains '/' then String.mk ((splitOnSlash id.data).getLastD [])
  else id

/-- The lookup of TripElementDetail.tsx: first item whose identifier string
equals the processed parameter. -/
def findElement (items : List TripCalendarItem) (id : String) : Option TripCalendarItem :=
  items.find? (fun item => itemIdString item == some (paramIdOf id))

/-- What TripElementDetail.tsx ends up doing in its effect: redirect to the
trip list, or settle into a view state with an error and a current item. -/
inductive DetailOutcome where
  | redirectToTrips
  | view (error : Option String) (currentItem : Option TripCalendarItem)
deriving DecidableEq, Repr

/-- The mount-time effect of TripElementDetail.tsx: redirect when the shared
state holds no truthy trip id, report a missing element id, otherwise
resolve the item purely from the calendar item collection, with a not-found
error when nothing matches.  The function is total: the lookup cannot
throw. -/
def tripElementDetailEffect (ctx : TripContextState) (id : Option String) : DetailOutcome :=
  if !strTruthy ctx.currentTripId then .redirectToTrips
  else if !strTruthy id then .view (some "No element ID provided") none
  else
    match id with
    | none => .view (some "No element ID provided") none
    | some i =>
      match findElement ctx.calendarItems i with
      | some element => .view none (some element)
      | none => .view (some "Element not found") none

/- Date picker, from BuildANewTrip.tsx handleDayClick. -/

/-- Which date the picker dialog is currently capturing (showCalendar). -/
inductive CalendarMode where
  | startSel
  | endSel
deriving DecidableEq, Repr

/-- The picker-relevant state of BuildANewTrip.tsx: the two selected dates
and the picker visibility mode (none means the picker is closed). -/
structure DatePickerState where
  startDate : Option Int
  endDate : Option Int
  showCalendar : Option CalendarMode
deriving DecidableEq, Repr

/-- Adding n days to a date instant (JS setDate(getDate() + n)). -/
def addDays (n : Int) (d : Int) : Int := d + n

/-- BuildANewTrip.tsx handleDayClick on the clicked date.  In start mode the
start date is set, the end date is pushed to the clicked date plus seven
days when it would fall before the new start date, and the picker moves to
end mode.  In end mode a date before the selected start date is rejected
without any state change; otherwise the end date is set and the picker
closes. -/
def handleDayClick (st : DatePickerState) (selectedDate : Int) : DatePickerState :=
  match st.showCalendar with
  | some .startSel =>
    let st1 := { st with startDate := some selectedDate }
    let st2 :=
      match st.endDate with
      | some e =>
        if e < selectedDate then { st1 with endDate := some (addDays 7 selectedDate) }
        else st1
      | none => st1
    { st2 with showCalendar := some .endSel }
  | some .endSel =>
    match st.startDate with
    | some s =>
      if selectedDate < s then st
      else { st with endDate := some selectedDate, showCalendar := none }
    | none => { st with endDate := some selectedDate, showCalendar := none }
  | none => st

/- Create flow, from BuildANewTrip.tsx handleContinue. -/

/-- The structured destination record of cityOptionsDict. -/
structure Destination where
  city : String
  state : String
  country : String
deriving DecidableEq, Repr

/-- The form state handleContinue reads. -/
structure BuildTripForm where
  selectedDestination : Option String
  selectedDestinationData : Option Destination
  startDate : Option Int
  endDate : Option Int
  selectedGuests : Option Nat
  selectedBudget : Option String
  selectedPurpose : Option String
  tripDetails : String
  tripName : String
  isPublic : Bool
deriving DecidableEq, Repr

/-- JS toLowerCase, character by character. -/
def toLowerStr (s : String) : String :=
  String.mk (s.data.map Char.toLower)

/-- BuildANewTrip.tsx formatBudgetToSymbols: count the dollar signs, else
parse the budget level from the lowercased text, defaulting to one dollar
sign. -/
def formatBudgetToSymbols (budgetString : Option String) : String :=
  match budgetString with
  | none => "$"
  | some b =>
    if b = "" then "$"
    else
      let dollarCount := b.data.countP (fun c => c == '$')
      if dollarCount > 0 then String.mk (List.replicate dollarCount '$')
      else
        let lb := toLowerStr b
        if strIncludes lb "luxury" || strIncludes lb "expensive" then "$$$$"
        else if strIncludes lb "moderate" || strIncludes lb "mid" then "$$"
        else if strIncludes lb "premium" || strIncludes lb "high" then "$$$"
        else "$"

/-- The payload handleContinue posts to the create endpoint (field public of
the payload is isPublic here).  Dates are the modelled instants; the ISO
string serialization is the identity on them. -/
structure TripData where
  name : String
  startDate : Int
  endDate : Int
  destination : Destination
  numberOfGuests : Nat
  status : String
  notes : String
  totalBudget : String
  purpose : String
  created_at : Int
  isPublic : Bool
deriving DecidableEq, Repr

/-- The payload construction of handleContinue, given the form and the
current instant now (new Date()): start defaults to now, end defaults to
the start plus seven days, guests to one, budget to one dollar sign,
purpose to Leisure. -/
def buildTripData (form : BuildTripForm) (now : Int) : TripData :=
  let startDateStr := match form.startDate with | some s => s | none => now
  let endDateStr := match form.endDate with | some e => e | none => addDays 7 startDateStr
  { name := strOr (some form.tripName) ("Trip to " ++ (form.selectedDestination.getD "")),
    startDate := startDateStr,
    endDate := endDateStr,
    destination := form.selectedDestinationData.getD { city := "", state := "", country := "" },
    numberOfGuests := numOr1 form.selectedGuests,
    status := "draft",
    notes := form.tripDetails,
    totalBudget := formatBudgetToSymbols form.selectedBudget,
    purpose := strOr form.selectedPurpose "Leisure",
    created_at := now,
    isPublic := form.isPublic }

/-- Whether the create response lets handleContinue take its success branch:
the response data carries a truthy trip id. -/
def postSuccess : Except String (Option String) → Bool
  | .ok (some t) => t ≠ ""
  | .ok none => false
  | .error _ => false

/-- What one run of handleContinue leaves behind: the pair written into the
shared trip state (trip id plus trip record, written together or not at
all), the inline error, the navigation target, and whether the create
request was sent at all. -/
structure ContinueResult where
  ctxWrite : Option (String × TripData)
  error : Option String
  navigatedTo : Option String
  requestSent : Bool
deriving DecidableEq, Repr

/-- BuildANewTrip.tsx handleContinue as a function of the form, the current
instant, and the outcome the create request would deliver (an exception
models both a rejected request and a non-2xx response, with the normalized
message).  A missing destination is rejected before any request; the shared
state is written only when the response carries a truthy trip id. -/
def handleContinue (form : BuildTripForm) (now : Int)
    (postResult : Except String (Option String)) : ContinueResult :=
  if !strTruthy form.selectedDestination then
    { ctxWrite := none, error := some "Please select a destination first",
      navigatedTo := none, requestSent := false }
  else
    let tripData := buildTripData form now
    match postResult with
    | .ok (some t) =>
      if t ≠ "" then
        { ctxWrite := some (t, tripData), error := none,
          navigatedTo := some ("/trip-draft-calendar/" ++ t), requestSent := true }
      else
        { ctxWrite := none,
          error := some "Failed to create trip: Failed to get trip ID from server",
          navigatedTo := none, requestSent := true }
    | .ok none =>
      { ctxWrite := none,
        error := some "Failed to create trip: Failed to get trip ID from server",
        navigatedTo := none, requestSent := true }
    | .error e =>
      { ctxWrite := none, error := some ("Failed to create trip: " ++ e),
        navigatedTo := none, requestSent := true }

/- Concrete sample data used to exercise the definitions. -/

/-- A sample trip whose identifier is the plain string B. -/
def sampleTripB : Trip :=
  { _id := .str "B", name := "Trip B", startDate := "2025-05-01",
    endDate := "2025-05-08", destination := "Rome, Italy", numberOfGuests := 2,
    status := some "draft", totalBudget := some (.str "$$"), notes := none }

/-- A sample trip whose identifier is the plain string A. -/
def sampleTripA : Trip :=
  { _id := .str "A", name := "Trip A", startDate := "2025-06-01",
    endDate := "2025-06-08", destination := "Paris, France", numberOfGuests := 1,
    status := some "draft", totalBudget := some (.str "$"), notes := none }

/-- A calendar item with a plain string identifier. -/
def itemPlain : TripCalendarItem :=
  { _id := .str "item-1", trip_id := .str "A", type := "dining",
    name := "Dinner", date := "2025-06-02", budget := some (.str "$$"), notes := none }

/-- A calendar item with a wrapped object identifier. -/
def itemWrapped : TripCalendarItem :=
  { _id := .obj (some "item-2"), trip_id := .str "A", type := "accommodation",
    name := "Hotel", date := "2025-06-01", budget := some (.num 3), notes := none }

/-- A calendar item whose wrapped identifier lacks its field. -/
def itemNoOid : TripCalendarItem :=
  { _id := .obj none, trip_id := .str "A", type := "attraction",
    name := "Museum", date := "2025-06-03", budget := none, notes := none }

/-- A shared state holding trip id A but a cached trip whose id is B. -/
def mismatchCtx : TripContextState :=
  { currentTripId := some "A", currentTrip := some sampleTripB, calendarItems := [] }

/-- A shared state holding trip id A and no cached trip. -/
def freshCtxA : TripContextState :=
  { currentTripId := some "A", currentTrip := none, calendarItems := [] }

/-- A shared state for the detail view with several item id shapes. -/
def detailCtx : TripContextState :=
  { currentTripId := some "A", currentTrip := some sampleTripA,
    calendarItems := [itemPlain, itemWrapped, itemNoOid] }

/-- A calendar api whose calls all fail. -/
def apiDown : CalendarApi :=
  { getTrip := fun _ => .error "API server is not running",
    getTripCalendar := fun _ => .error "API server is not running" }

/-- A calendar api whose calls all succeed. -/
def apiOk : CalendarApi :=
  { getTrip := fun _ => .ok sampleTripA,
    getTripCalendar := fun _ => .ok [itemPlain] }

/-- A create form with every field untouched. -/
def emptyForm : BuildTripForm :=
  { selectedDestination := none, selectedDestinationData := none,
    startDate := none, endDate := none, selectedGuests := none,
    selectedBudget := none, selectedPurpose := none,
    tripDetails := "", tripName := "", isPublic := true }

/-- A create form where only the destination was chosen. -/
def parisOnlyForm : BuildTripForm :=
  { emptyForm with
    selectedDestination := some "Paris, France",
    selectedDestinationData := some { city := "Paris", state := "", country := "France" } }

/-- A create form with a destination and a guest count but no dates and no
budget. -/
def parisGuestsForm : BuildTripForm :=
  { parisOnlyForm with selectedGuests := some 3 }

/- Theorems. -/

/-- Every character surviving jsTrimList was a character of the input. -/
theorem mem_jsTrimList {c : Char} {l : List Char} (h : c ∈ jsTrimList l) : c ∈ l := by
  unfold jsTrimList at h
  rw [List.mem_reverse] at h
  have h1 : c ∈ (l.dropWhile jsWhitespaceChar).reverse :=
    (List.dropWhile_sublist _).mem h
  rw [List.mem_reverse] at h1
  exact (List.dropWhile_sublist _).mem h1

/-- C2: in start-date mode, clicking a day sets the start date to that day;
when an end date was already selected and lies strictly before the clicked
day, the end date is moved to the clicked day plus exactly seven days; and
in every case the resulting state never has the start date strictly after
the end date. -/
theorem handleDayClick_start_shift (st : DatePickerState) (d : Int)
    (hmode : st.showCalendar = some CalendarMode.startSel) :
    ((handleDayClick st d).startDate = some d)
    ∧ (∀ e, st.endDate = some e → e < d →
        (handleDayClick st d).endDate = some (addDays 7 d))
    ∧ (∀ s e, (handleDayClick st d).startDate = some s →
        (handleDayClick st d).endDate = some e → s ≤ e) := by
  unfold handleDayClick
  rw [hmode]
  cases hE : st.endDate with
  | none =>
    refine ⟨rfl, ?_, ?_⟩
    · intro e he
      simp [hE] at he
    · intro s e hs he
      simp at hs he
  | some e0 =>
    by_cases hlt : e0 < d
    · refine ⟨?_, ?_, ?_⟩
      · simp [hlt]
      · intro e he hed
        simp [hlt]
      · intro s e hs he
        simp [hlt] at hs he
        subst hs
        subst he
        unfold addDays
        omega
    · refine ⟨?_, ?_, ?_⟩
      · simp [hlt]
      · intro e he hed
        simp at he
        omega
      · intro s e hs he
        simp [hlt] at hs he
        subst hs
        subst he
        omega

/-- C3: in end-date mode with a start date already selected, clicking a day
strictly before that start date changes nothing at all: both dates keep
their values and the picker stays open in end-date mode. -/
theorem handleDayClick_end_reject (st : DatePickerState) (d s : Int)
    (hmode : st.showCalendar = some CalendarMode.endSel)
    (hs : st.startDate = some s) (hlt : d < s) :
    handleDayClick st d = st
    ∧ (handleDayClick st d).showCalendar = some CalendarMode.endSel := by
  have h : handleDayClick st d = st := by
    unfold handleDayClick
    rw [hmode, hs]
    simp [hlt]
  exact ⟨h, by rw [h, hmode]⟩

/-- C3 witness: rejecting day 5 when the start date is day 10. -/
theorem handleDayClick_end_reject_witness :
    handleDayClick ⟨some 10, some 12, some CalendarMode.endSel⟩ 5
        = ⟨some 10, some 12, some CalendarMode.endSel⟩
    ∧ (handleDayClick ⟨some 10, some 12, some CalendarMode.endSel⟩ 5).showCalendar
        = some CalendarMode.endSel :=
  handleDayClick_end_reject ⟨some 10, some 12, some CalendarMode.endSel⟩ 5 10 rfl rfl (by decide)

/-- C2 witness: clicking day 20 when the range was 10 to 12 moves the end
date to day 27. -/
theorem handleDayClick_start_shift_witness :
    (handleDayClick ⟨some 10, some 12, some CalendarMode.startSel⟩ 20).startDate = some 20
    ∧ (handleDayClick ⟨some 10, some 12, some CalendarMode.startSel⟩ 20).endDate
        = some (addDays 7 20) := by
  have h := handleDayClick_start_shift ⟨some 10, some 12, some CalendarMode.startSel⟩ 20 rfl
  exact ⟨h.1, h.2.1 12 rfl (by decide)⟩

/-- C4: the create flow writes the shared trip state exactly when a
destination is present and the create response carried a truthy trip id;
when the destination is missing the request is never even sent and an
inline error is shown instead. -/
theorem handleContinue_write_iff_success (form : BuildTripForm) (now : Int)
    (postResult : Except String (Option String)) :
    ((handleContinue form now postResult).ctxWrite.isSome
        = (strTruthy form.selectedDestination && postSuccess postResult))
    ∧ (strTruthy form.selectedDestination = false →
        (handleContinue form now postResult).requestSent = false
        ∧ (handleContinue form now postResult).error.isSome = true) := by
  by_cases hd : strTruthy form.selectedDestination = true
  · constructor
    · rcases postResult with e | t
      · simp [handleContinue, hd, postSuccess]
      · rcases t with _ | t
        · simp [handleContinue, hd, postSuccess]
        · by_cases ht : t = ""
          · simp [handleContinue, hd, postSuccess, ht]
          · simp [handleContinue, hd, postSuccess, ht]
    · intro hfail
      rw [hd] at hfail
      cases hfail
  · rw [Bool.not_eq_true] at hd
    constructor
    · simp [handleContinue, hd]
    · intro _
      simp [handleContinue, hd]

/-- C4 witness: with no destination the request is not sent, nothing is
written, and the error is set. -/
theorem handleContinue_write_iff_success_witness :
    ((handleContinue emptyForm 0 (Except.error "no response")).ctxWrite.isSome
        = (strTruthy emptyForm.selectedDestination
            && postSuccess (Except.error "no response")))
    ∧ ((handleContinue emptyForm 0 (Except.error "no response")).requestSent = false
        ∧ (handleContinue emptyForm 0 (Except.error "no response")).error.isSome = true) := by
  have h := handleContinue_write_iff_success emptyForm 0 (Except.error "no response")
  exact ⟨h.1, h.2 rfl⟩

/-- C5 counterexample: a submission with a destination selected, no dates
and no budget chosen, but a guest count of three, produces a payload whose
guest count is three, not one, so the claim is false as universally
stated. -/
theorem createTrip_defaults_counterexample :
    strTruthy parisGuestsForm.selectedDestination = true
    ∧ parisGuestsForm.startDate = none
    ∧ parisGuestsForm.endDate = none
    ∧ parisGuestsForm.selectedBudget = none
    ∧ (buildTripData parisGuestsForm 0).numberOfGuests = 3
    ∧ ¬ (buildTripData parisGuestsForm 0).numberOfGuests = 1 := by
  decide

/-- C5 amended: for a submission with a destination selected and no dates,
guest count, budget, or purpose chosen, the payload starts today, ends
exactly seven days later, carries one dollar sign, one guest, and the
Leisure purpose; on a successful response that same payload is stored with
the returned trip id. -/
theorem createTrip_defaults (form : BuildTripForm) (now : Int)
    (hdest : strTruthy form.selectedDestination = true)
    (hstart : form.startDate = none) (hend : form.endDate = none)
    (hguests : form.selectedGuests = none) (hbudget : form.selectedBudget = none)
    (hpurpose : form.selectedPurpose = none) :
    (buildTripData form now).startDate = now
    ∧ (buildTripData form now).endDate = addDays 7 now
    ∧ (buildTripData form now).totalBudget = "$"
    ∧ (buildTripData form now).numberOfGuests = 1
    ∧ (buildTripData form now).purpose = "Leisure"
    ∧ ∀ t, t ≠ "" → (handleContinue form now (Except.ok (some t))).ctxWrite
        = some (t, buildTripData form now) := by
  refine ⟨?_, ?_, ?_, ?_, ?_, ?_⟩
  · simp [buildTripData, hstart]
  · simp [buildTripData, hstart, hend]
  · simp [buildTripData, hbudget, formatBudgetToSymbols]
  · simp [buildTripData, hguests, numOr1]
  · simp [buildTripData, hpurpose, strOr]
  · intro t ht
    simp [handleContinue, hdest, ht]

/-- C5 witness: the amended statement at the form where only the
destination Paris, France was chosen. -/
theorem createTrip_defaults_witness :
    (buildTripData parisOnlyForm 100).startDate = 100
    ∧ (buildTripData parisOnlyForm 100).endDate = addDays 7 100
    ∧ (buildTripData parisOnlyForm 100).totalBudget = "$"
    ∧ (buildTripData parisOnlyForm 100).numberOfGuests = 1
    ∧ (buildTripData parisOnlyForm 100).purpose = "Leisure"
    ∧ (handleContinue parisOnlyForm 100 (Except.ok (some "abc123"))).ctxWrite
        = some ("abc123", buildTripData parisOnlyForm 100) := by
  have h := createTrip_defaults parisOnlyForm 100 rfl rfl rfl rfl rfl rfl
  exact ⟨h.1, h.2.1, h.2.2.1, h.2.2.2.1, h.2.2.2.2.1, h.2.2.2.2.2 "abc123" (by decide)⟩

/-- C6 counterexample: with a healthy server and an empty listing, the list
view renders the no-trips message through the error display branch, not
through the dedicated empty-state branch. -/
theorem trips_empty_error_path_counterexample :
    tripsDisplayAfterFetch (Except.ok ⟨"ok", "API server is running correctly"⟩)
        (Except.ok []) = TripsDisplay.errorView noTripsFoundMsg
    ∧ TripsDisplay.errorView noTripsFoundMsg ≠ TripsDisplay.emptyView := by
  constructor
  · rfl
  · decide

/-- C6 amended: when the health check succeeds and the listing returns an
empty collection, the informational no-trips message is stored in the error
field, the listing was consulted, and the message is rendered through the
error display branch (the dedicated empty-state branch is not used for this
case). -/
theorem fetchTrips_empty_sets_error_message (m : String) :
    (fetchTrips (Except.ok ⟨"ok", m⟩) (Except.ok [])).error = some noTripsFoundMsg
    ∧ (fetchTrips (Except.ok ⟨"ok", m⟩) (Except.ok [])).listCalled = true
    ∧ tripsDisplayAfterFetch (Except.ok ⟨"ok", m⟩) (Except.ok [])
        = TripsDisplay.errorView noTripsFoundMsg := by
  exact ⟨rfl, rfl, rfl⟩

/-- C8: whenever the health check fails, by throwing or by reporting a
status other than ok, the trip listing is never invoked and an error
message is set. -/
theorem fetchTrips_unhealthy_skips_list (healthResult : Except String HealthStatus)
    (tripsResult : Except String (List Trip))
    (h : healthFailed healthResult = true) :
    (fetchTrips healthResult tripsResult).listCalled = false
    ∧ (fetchTrips healthResult tripsResult).error.isSome = true := by
  cases healthResult with
  | error e => exact ⟨rfl, rfl⟩
  | ok st =>
    unfold healthFailed at h
    rw [decide_eq_true_iff] at h
    simp [fetchTrips, h]

/-- C8 witness: a health response with a non-ok status skips the listing
even though the listing would have succeeded. -/
theorem fetchTrips_unhealthy_skips_list_witness :
    (fetchTrips (Except.ok ⟨"error", "MongoDB down"⟩) (Except.ok [sampleTripB])).listCalled
        = false
    ∧ (fetchTrips (Except.ok ⟨"error", "MongoDB down"⟩)
        (Except.ok [sampleTripB])).error.isSome = true :=
  fetchTrips_unhealthy_skips_list (Except.ok ⟨"error", "MongoDB down"⟩)
    (Except.ok [sampleTripB]) (by decide)

/-- C7: with an active trip id, when no calendar item in the shared state,
plain or wrapped, has an identifier matching the requested id, the detail
view settles in the not-found display state with its error message set; the
lookup is a total function, so it cannot throw. -/
theorem detail_not_found (ctx : TripContextState) (i : String)
    (hctx : strTruthy ctx.currentTripId = true) (hi : i ≠ "")
    (hmiss : ∀ item ∈ ctx.calendarItems, itemIdString item ≠ some (paramIdOf i)) :
    tripElementDetailEffect ctx (some i)
        = DetailOutcome.view (some "Element not found") none := by
  have hfind : findElement ctx.calendarItems i = none := by
    apply List.find?_eq_none.mpr
    intro item hmem
    simp only [beq_iff_eq]
    exact hmiss item hmem
  have hti : strTruthy (some i) = true := by
    simp [strTruthy, hi]
  simp [tripElementDetailEffect, hctx, hti, hfind]

/-- C7 witness: looking up an absent id in a collection holding a plain id,
a wrapped id, and a wrapped id without its field. -/
theorem detail_not_found_witness :
    tripElementDetailEffect detailCtx (some "item-9")
        = DetailOutcome.view (some "Element not found") none :=
  detail_not_found detailCtx "item-9" (by decide) (by decide) (by decide)

/-- C9 counterexample: for the identifier consisting of a quoted string
whose interior holds a newline, the trimmed value begins and ends with a
quote character, yet the cleaning of getTrip leaves the quotes in place,
because the dot of its stripping regex does not match line terminators; the
spec-worded normalization removes them. -/
theorem cleanTripId_newline_counterexample :
    jsTrim "\"a\nb\"" = "\"a\nb\""
    ∧ (jsTrim "\"a\nb\"").data.head? = some '"'
    ∧ (jsTrim "\"a\nb\"").data.getLast? = some '"'
    ∧ cleanTripId "\"a\nb\"" = "\"a\nb\""
    ∧ specNormalizeId "\"a\nb\"" = "a\nb"
    ∧ cleanTripId "\"a\nb\"" ≠ specNormalizeId "\"a\nb\"" := by
  decide

/-- C9 amended: for every non-empty identifier that contains no line
terminator character, the identifier placed in the request URL by getTrip
is the input trimmed and, when the trimmed value begins and ends with a
quote character, with those two surrounding quotes removed. -/
theorem getTrip_id_normalization (id : String) (hne : id ≠ "")
    (hnl : ∀ c ∈ id.data, lineTerminatorChar c = false) :
    getTripRequestId id = some (specNormalizeId id) := by
  unfold getTripRequestId
  rw [if_neg hne]
  congr 1
  unfold cleanTripId specNormalizeId
  cases ht : jsTrimList id.data with
  | nil => simp [stripQuotesList]
  | cons c rest =>
    cases rest with
    | nil => simp [stripQuotesList]
    | cons c2 rest2 =>
      have hall : (c2 :: rest2).dropLast.all (fun x => !lineTerminatorChar x) = true := by
        rw [List.all_eq_true]
        intro x hx
        have hx1 : x ∈ c2 :: rest2 := (List.dropLast_sublist _).mem hx
        have hx2 : x ∈ jsTrimList id.data := by
          rw [ht]
          exact List.mem_cons_of_mem c hx1
        have hx3 : x ∈ id.data := mem_jsTrimList hx2
        rw [hnl x hx3]
        rfl
      simp only [stripQuotesList, hall, Bool.and_true]
      split <;> rfl

/-- C9 witness: the amended statement at a padded, double-quoted
identifier. -/
theorem getTrip_id_normalization_witness :
    getTripRequestId "  \"abc\"  " = some (specNormalizeId "  \"abc\"  ")
    ∧ specNormalizeId "  \"abc\"  " = "abc" :=
  ⟨getTrip_id_normalization "  \"abc\"  " (by decide) (by decide), by decide⟩

/-- C1 counterexample: the shared state holds trip id A but a cached trip
whose identifier is B; the calendar view still skips the trip fetch and
keeps using the mismatched cached trip, so a cached trip belonging to a
different trip does suppress the fetch. -/
theorem fetchData_mismatched_cache_counterexample :
    mismatchCtx.currentTripId = some "A"
    ∧ mismatchCtx.currentTrip = some sampleTripB
    ∧ sampleTripB._id ≠ MongoId.str "A"
    ∧ (fetchData apiDown none mismatchCtx).tripFetched = false
    ∧ (fetchData apiDown none mismatchCtx).ctx.currentTrip = some sampleTripB := by
  refine ⟨rfl, rfl, by decide, rfl, rfl⟩

/-- C1 amended: whenever a trip id resolves, the calendar view skips the
trip fetch exactly when the shared state holds any cached trip, matching or
not; and it fetches the calendar item collection afresh, regardless of any
cached items, whenever the trip is available, that is, cached or freshly
fetched with success. -/
theorem fetchData_fetch_policy (api : CalendarApi) (pathId : Option String)
    (ctx : TripContextState) (tid : String)
    (h : resolvedTripId ctx.currentTripId pathId = some tid) :
    (fetchData api pathId ctx).tripFetched = ctx.currentTrip.isNone
    ∧ (fetchData api pathId ctx).calendarFetched
        = (ctx.currentTrip.isSome || exceptOk (api.getTrip tid)) := by
  unfold fetchData
  rw [h]
  cases hc : ctx.currentTrip with
  | some t =>
    cases hcal : api.getTripCalendar tid <;>
      simp [fetchCalendarStep, hcal]
  | none =>
    cases hg : api.getTrip tid with
    | error e => simp [exceptOk, hg]
    | ok t =>
      cases hcal : api.getTripCalendar tid <;>
        simp [fetchCalendarStep, exceptOk, hg, hcal]

/-- C1 witness: with no cached trip the trip is fetched and the calendar is
fetched. -/
theorem fetchData_fetch_policy_witness :
    (fetchData apiOk none freshCtxA).tripFetched = true
    ∧ (fetchData apiOk none freshCtxA).calendarFetched = true := by
  have h := fetchData_fetch_policy apiOk none freshCtxA "A" (by decide)
  exact ⟨h.1, h.2⟩

/-- C10: when the shared state already holds a truthy trip id, the calendar
view behaves identically for every URL path id, and every fetch it performs
uses the context id. -/
theorem fetchData_ignores_path_when_context_id (api : CalendarApi)
    (ctx : TripContextState) (p1 p2 : Option String)
    (h : strTruthy ctx.currentTripId = true) :
    fetchData api p1 ctx = fetchData api p2 ctx
    ∧ (fetchData api p1 ctx).usedTripId = ctx.currentTripId := by
  obtain ⟨t, ht⟩ : ∃ t, ctx.currentTripId = some t := by
    cases hc : ctx.currentTripId with
    | none => rw [hc] at h; cases h
    | some t => exact ⟨t, rfl⟩
  have hres : ∀ p : Option String, resolvedTripId ctx.currentTripId p = some t := by
    intro p
    unfold resolvedTripId
    rw [if_pos h, ht]
  have hctx1 : ∀ p : Option String,
      (if !strTruthy ctx.currentTripId && strTruthy p then
        { ctx with currentTripId := p } else ctx) = ctx := by
    intro p
    rw [h]
    simp
  constructor
  · unfold fetchData
    rw [hres p1, hres p2, hctx1 p1, hctx1 p2]
  · unfold fetchData
    rw [hres p1, hctx1 p1]
    cases hc : ctx.currentTrip with
    | some tr =>
      cases hcal : api.getTripCalendar t <;>
        simp [fetchCalendarStep, hcal, ht]
    | none =>
      cases hg : api.getTrip t with
      | error e => simp [hg, ht]
      | ok tr =>
        cases hcal : api.getTripCalendar t <;>
          simp [fetchCalendarStep, hg, hcal, ht]

/-- C10 witness: with context id A, two different path ids give the same
run, and the fetches use A. -/
theorem fetchData_ignores_path_witness :
    fetchData apiOk (some "P") freshCtxA = fetchData apiOk (some "Q") freshCtxA
    ∧ (fetchData apiOk (some "P") freshCtxA).usedTripId = freshCtxA.currentTripId :=
  fetchData_ignores_path_when_context_id apiOk freshCtxA (some "P") (some "Q") (by decide)

end Viammo
